import Mathlib

set_option autoImplicit false

/-!
Shallow embedding of `src/scripts/avnir_compute_volume_per_label.py`.

The script loads a label image (a 3D integer array together with voxel
spacings `zooms` and an affine), optionally loads a brain-mask image, checks
geometric compatibility, computes one volume per non-zero label id, and
writes the resulting report to a JSON file.

Arrays are modelled as flattened lists (the script only ever reduces over
all voxels, so the 3D shape is irrelevant).  Real/float values are modelled
as rationals; the one place where IEEE non-finite values can arise (division
by a zero mask sum) is modelled explicitly with the `FVal` type.
-/

namespace Avnirpy

/-- Model of an IEEE floating-point value as produced by the script's one
division: either a finite (exact, rational) value, or `inf`/`ninf`/`nan`
arising from division by zero. -/
inductive FVal where
  | fin (q : ℚ)
  | inf
  | ninf
  | nan
deriving DecidableEq

/-- IEEE division of finite values `a / b` as numpy performs it at
line 72-74 of the script: exact when `b ≠ 0`, otherwise `±inf` or `nan`
depending on the sign of the numerator. -/
def fdiv (a b : ℚ) : FVal :=
  if b ≠ 0 then .fin (a / b)
  else if 0 < a then .inf
  else if a < 0 then .ninf
  else .nan

/-- Whether a float value is finite (not `inf`, `-inf` or `nan`). -/
def FVal.isFinite : FVal → Bool
  | .fin _ => true
  | _ => false

/-- One value of the `volumes` dictionary built at lines 66-74: the inner
dict with key `volume` and, when a brain mask was given, `volume_normalized`. -/
structure Entry where
  volume : ℚ
  volume_normalized : Option FVal
deriving DecidableEq

/-- The `volumes` dictionary of the script: label id to entry, in the
(sorted, duplicate-free) order `np.unique` enumerates the ids. -/
abbrev Report := List (ℤ × Entry)

/-- Product of the three voxel spacings, `np.prod(zooms)` (line 70). -/
def voxelVolume (zooms : ℚ × ℚ × ℚ) : ℚ :=
  zooms.1 * zooms.2.1 * zooms.2.2

/-- Line 64, `labels_id = np.unique(label_data[label_data != 0])`: the
distinct non-zero values of the (flattened) label array, sorted ascending. -/
def labelsId (labelData : List ℤ) : List ℤ :=
  List.insertionSort (· ≤ ·) ((labelData.filter (· ≠ 0)).dedup)

/-- Lines 66-74, the loop building `volumes`: for each label id,
`volume = np.sum(label_data == label_id) * np.prod(zooms)` and, when a
brain mask was given,
`volume_normalized = (np.sum(label_data == label_id) * np.prod(zooms)) / np.sum(brain_mask_data)`.
Note that the denominator is the SUM of the mask values, and that the loop's
`if label_id not in volumes` guard is always true because `labels_id` is
duplicate-free. -/
def computeVolumes (labelData : List ℤ) (zooms : ℚ × ℚ × ℚ)
    (brainMaskData : Option (List ℚ)) : Report :=
  (labelsId labelData).map (fun labelId =>
    (labelId,
      { volume := (labelData.count labelId : ℚ) * voxelVolume zooms
        volume_normalized := brainMaskData.map (fun mask =>
          fdiv ((labelData.count labelId : ℚ) * voxelVolume zooms) mask.sum) }))

/-- Absolute tolerance of `np.allclose` (default 1e-8). -/
def atol : ℚ := 1 / 100000000

/-- Relative tolerance of `np.allclose` (default 1e-5). -/
def rtol : ℚ := 1 / 100000

/-- Line 59-61, `np.allclose(a, b)` on the flattened affines: element-wise
`|a i - b i| ≤ atol + rtol * |b i|` (and equal shapes). -/
def allclose (a b : List ℚ) : Bool :=
  (a.length == b.length) &&
    (a.zip b).all (fun p => decide (|p.1 - p.2| ≤ atol + rtol * |p.2|))

/-- A loaded label image: `label_data`, `label_header.get_zooms()` and
`label_header.get_best_affine()` (affine flattened to 16 entries). -/
structure LabelImage where
  data : List ℤ
  zooms : ℚ × ℚ × ℚ
  affine : List ℚ
deriving DecidableEq

/-- A loaded brain-mask image; mask voxels may hold arbitrary (also
non-binary) values. -/
structure MaskImage where
  data : List ℚ
  zooms : ℚ × ℚ × ℚ
  affine : List ℚ
deriving DecidableEq

/-- The parsed command-line arguments, exactly the fields `_build_arg_parser`
defines (lines 28-44): two positional paths, the optional `--brain_mask`
path, and the overwrite flag added by `add_overwrite_arg`.  The parser
defines no verbosity or warn-only option. -/
structure Args where
  input_labels : String
  output_json : String
  brain_mask : Option String
  overwrite : Bool
deriving DecidableEq

/-- The environment `main` runs in: which paths exist on disk, and the image
decoded by `load_image` at each path (label and mask dtype views). -/
structure Env where
  existingPaths : List String
  labelImages : String → LabelImage
  maskImages : String → MaskImage

/-- The errors `main` can raise: the two fatal checks of the I/O helpers and
the `ValueError("Label and brain mask images are in a different sapce.")`
of line 62. -/
inductive Err where
  | inputNotFound (path : String)
  | outputExists (path : String)
  | geometryMismatch
deriving DecidableEq

/-- Modelled from the spec: `assert_inputs_exist` from `avnirpy.io.utils` is
not under `src/`.  Spec section 7: `InputNotFound`: a declared input path
does not resolve to a readable file — surfaced immediately, fatal.  Checks
the required label path and, when given, the optional mask path (line 51). -/
def assertInputsExist (env : Env) (required : String) (optional : Option String) :
    Option Err :=
  if required ∉ env.existingPaths then some (.inputNotFound required)
  else match optional with
    | some p => if p ∉ env.existingPaths then some (.inputNotFound p) else none
    | none => none

/-- Modelled from the spec: `assert_outputs_exist` from `avnirpy.io.utils` is
not under `src/`.  Spec section 7: `OutputExists`: output path already
present without overwrite permission — fatal before computation begins
(line 52). -/
def assertOutputsExist (env : Env) (args : Args) (output : String) : Option Err :=
  if output ∈ env.existingPaths ∧ args.overwrite = false then
    some (.outputExists output)
  else none

/-- Lines 47-77, the body of `main` after argument parsing.  Returns the
result (the report, or the raised error) together with the list of file
writes performed; the only write, of the report to `args.output_json`,
happens at lines 76-77 after the whole report has been computed. -/
def mainRun (args : Args) (env : Env) : Except Err Report × List (String × Report) :=
  match assertInputsExist env args.input_labels args.brain_mask with
  | some e => (.error e, [])
  | none =>
    match assertOutputsExist env args args.output_json with
    | some e => (.error e, [])
    | none =>
      match args.brain_mask with
      | some maskPath =>
        if (env.labelImages args.input_labels).zooms ≠ (env.maskImages maskPath).zooms ∨
            allclose (env.labelImages args.input_labels).affine
              (env.maskImages maskPath).affine = false then
          (.error .geometryMismatch, [])
        else
          (.ok (computeVolumes (env.labelImages args.input_labels).data
              (env.labelImages args.input_labels).zooms
              (some (env.maskImages maskPath).data)),
            [(args.output_json,
              computeVolumes (env.labelImages args.input_labels).data
                (env.labelImages args.input_labels).zooms
                (some (env.maskImages maskPath).data))])
      | none =>
        (.ok (computeVolumes (env.labelImages args.input_labels).data
            (env.labelImages args.input_labels).zooms none),
          [(args.output_json,
            computeVolumes (env.labelImages args.input_labels).data
              (env.labelImages args.input_labels).zooms none)])

/-- The count of in-brain voxels as the spec words it, for comparison with
the source computation: the number of mask voxels whose value is non-zero.
This definition follows the spec's words, not the source. -/
def spec_inMaskVoxelCount (mask : List ℚ) : ℕ :=
  mask.countP (fun x => decide (x ≠ 0))

/-- The identity 4x4 affine, flattened, used by the concrete test inputs. -/
def idAffine : List ℚ :=
  [1, 0, 0, 0, 0, 1, 0, 0, 0, 0, 1, 0, 0, 0, 0, 1]

/-- Concrete arguments: label image, output path, and a brain mask. -/
def argsZeroMask : Args :=
  { input_labels := "labels.nrrd", output_json := "out.json",
    brain_mask := some "mask.nrrd", overwrite := false }

/-- Concrete environment whose brain mask is entirely zero. -/
def envZeroMask : Env :=
  { existingPaths := ["labels.nrrd", "mask.nrrd"],
    labelImages := fun _ => { data := [1], zooms := (1, 1, 1), affine := idAffine },
    maskImages := fun _ => { data := [0, 0], zooms := (1, 1, 1), affine := idAffine } }

/-- Concrete environment whose mask spacing (2,2,2) differs from the label
spacing (1,1,1). -/
def badZoomsEnv : Env :=
  { existingPaths := ["labels.nrrd", "mask.nrrd"],
    labelImages := fun _ => { data := [1], zooms := (1, 1, 1), affine := idAffine },
    maskImages := fun _ => { data := [1], zooms := (2, 2, 2), affine := idAffine } }

/-- Concrete environment whose mask spacing (3,3,3) differs from the label
spacing (1,1,1). -/
def badZoomsEnvB : Env :=
  { existingPaths := ["labels.nrrd", "mask.nrrd"],
    labelImages := fun _ => { data := [1, 2], zooms := (1, 1, 1), affine := idAffine },
    maskImages := fun _ => { data := [1], zooms := (3, 3, 3), affine := idAffine } }

/-- Concrete environment with no existing files at all. -/
def missingInputEnv : Env :=
  { existingPaths := [],
    labelImages := fun _ => { data := [1], zooms := (1, 1, 1), affine := idAffine },
    maskImages := fun _ => { data := [1], zooms := (1, 1, 1), affine := idAffine } }

end Avnirpy

namespace Avnirpy

lemma mem_labelsId {labelData : List ℤ} {a : ℤ} :
    a ∈ labelsId labelData ↔ a ≠ 0 ∧ a ∈ labelData := by
  unfold labelsId
  rw [(List.perm_insertionSort _ _).mem_iff, List.mem_dedup, List.mem_filter]
  simp [and_comm]

lemma nodup_labelsId (labelData : List ℤ) : (labelsId labelData).Nodup :=
  (List.perm_insertionSort _ _).nodup_iff.mpr (List.nodup_dedup _)

lemma keys_computeVolumes (labelData : List ℤ) (zooms : ℚ × ℚ × ℚ)
    (brainMaskData : Option (List ℚ)) :
    (computeVolumes labelData zooms brainMaskData).map Prod.fst = labelsId labelData := by
  unfold computeVolumes
  rw [List.map_map]
  exact List.map_id _

lemma mem_computeVolumes {labelData : List ℤ} {zooms : ℚ × ℚ × ℚ}
    {brainMaskData : Option (List ℚ)} {labelId : ℤ} {e : Entry}
    (h : (labelId, e) ∈ computeVolumes labelData zooms brainMaskData) :
    labelId ∈ labelsId labelData ∧
      e = { volume := (labelData.count labelId : ℚ) * voxelVolume zooms
            volume_normalized := brainMaskData.map (fun mask =>
              fdiv ((labelData.count labelId : ℚ) * voxelVolume zooms) mask.sum) } := by
  unfold computeVolumes at h
  obtain ⟨a, ha, heq⟩ := List.mem_map.mp h
  simp only [Prod.mk.injEq] at heq
  obtain ⟨rfl, h2⟩ := heq
  exact ⟨ha, h2.symm⟩

lemma count_filter_nonzero (l : List ℤ) (a : ℤ) (h : a ≠ 0) :
    (l.filter (· ≠ 0)).count a = l.count a := by
  induction l with
  | nil => rfl
  | cons b t ih =>
    simp only [ne_eq, decide_not] at ih
    by_cases hb : b = 0
    · subst hb
      simp [List.filter_cons, List.count_cons, ih, Ne.symm h]
    · simp [List.filter_cons, List.count_cons, hb, ih]

lemma list_sum_map_mul_const {α : Type} (l : List α) (f : α → ℚ) (c : ℚ) :
    (l.map (fun a => f a * c)).sum = (l.map f).sum * c := by
  induction l with
  | nil => simp
  | cons a t ih => simp [ih, add_mul]

lemma binary_mask_sum_eq_count (mask : List ℚ) (h : ∀ x ∈ mask, x = 0 ∨ x = 1) :
    mask.sum = (spec_inMaskVoxelCount mask : ℚ) := by
  induction mask with
  | nil => simp [spec_inMaskVoxelCount]
  | cons a t ih =>
    have ht := ih (fun x hx => h x (List.mem_cons_of_mem a hx))
    rcases h a (List.mem_cons_self a t) with h0 | h1
    · subst h0
      simpa [spec_inMaskVoxelCount, List.countP_cons] using ht
    · subst h1
      simp only [spec_inMaskVoxelCount, List.countP_cons, List.sum_cons, ne_eq,
        decide_not] at ht ⊢
      norm_num
      rw [ht]
      ring

lemma mainRun_eq_of_checks (args : Args) (env : Env) (maskPath : String)
    (hm : args.brain_mask = some maskPath)
    (h1 : assertInputsExist env args.input_labels args.brain_mask = none)
    (h2 : assertOutputsExist env args args.output_json = none) :
    mainRun args env =
      if (env.labelImages args.input_labels).zooms ≠ (env.maskImages maskPath).zooms ∨
          allclose (env.labelImages args.input_labels).affine
            (env.maskImages maskPath).affine = false then
        (.error .geometryMismatch, [])
      else
        (.ok (computeVolumes (env.labelImages args.input_labels).data
            (env.labelImages args.input_labels).zooms
            (some (env.maskImages maskPath).data)),
          [(args.output_json,
            computeVolumes (env.labelImages args.input_labels).data
              (env.labelImages args.input_labels).zooms
              (some (env.maskImages maskPath).data))]) := by
  unfold mainRun
  rw [h1, h2, hm]

lemma mainRun_input_err (args : Args) (env : Env) (e : Err)
    (hA : assertInputsExist env args.input_labels args.brain_mask = some e) :
    mainRun args env = (.error e, []) := by
  unfold mainRun
  rw [hA]

lemma mainRun_output_err (args : Args) (env : Env) (e : Err)
    (hA : assertInputsExist env args.input_labels args.brain_mask = none)
    (hB : assertOutputsExist env args args.output_json = some e) :
    mainRun args env = (.error e, []) := by
  unfold mainRun
  rw [hA, hB]

lemma mainRun_no_mask (args : Args) (env : Env)
    (hA : assertInputsExist env args.input_labels args.brain_mask = none)
    (hB : assertOutputsExist env args args.output_json = none)
    (hM : args.brain_mask = none) :
    mainRun args env =
      (.ok (computeVolumes (env.labelImages args.input_labels).data
          (env.labelImages args.input_labels).zooms none),
        [(args.output_json,
          computeVolumes (env.labelImages args.input_labels).data
            (env.labelImages args.input_labels).zooms none)]) := by
  unfold mainRun
  rw [hA, hB, hM]

lemma fdiv_zero_not_finite (a : ℚ) : (fdiv a 0).isFinite = false := by
  unfold fdiv
  rw [if_neg (by simp)]
  split_ifs <;> rfl

end Avnirpy

namespace Avnirpy

/-- C1: for every label id in the report, the reported volume equals the
number of voxels equal to that id times the product of the three voxel
spacings. -/
theorem volume_eq_count_mul_spacing_product
    (labelData : List ℤ) (zooms : ℚ × ℚ × ℚ) (brainMaskData : Option (List ℚ))
    (labelId : ℤ) (e : Entry)
    (h : (labelId, e) ∈ computeVolumes labelData zooms brainMaskData) :
    e.volume = (labelData.count labelId : ℚ) * (zooms.1 * zooms.2.1 * zooms.2.2) := by
  rw [(mem_computeVolumes h).2]
  rfl

/-- Witness for C1 at a concrete input. -/
theorem volume_eq_count_mul_spacing_product_witness :
    ((1, ({ volume := 2, volume_normalized := none } : Entry)) ∈
        computeVolumes [1, 1, 2] (1, 1, 1) none) ∧
      ({ volume := 2, volume_normalized := none } : Entry).volume =
        ((([1, 1, 2] : List ℤ).count 1 : ℚ) * (1 * 1 * 1)) := by
  have hm : (1, ({ volume := 2, volume_normalized := none } : Entry)) ∈
      computeVolumes [1, 1, 2] (1, 1, 1) none := by
    simp [computeVolumes, labelsId, voxelVolume]
  exact ⟨hm, volume_eq_count_mul_spacing_product _ _ _ _ _ hm⟩

/-- C5: the report's keys are exactly the distinct non-zero values of the
label volume, without duplicates; an all-zero label volume yields the empty
report. -/
theorem report_keys_are_distinct_nonzero_labels
    (labelData : List ℤ) (zooms : ℚ × ℚ × ℚ) (brainMaskData : Option (List ℚ)) :
    (∀ labelId : ℤ,
        labelId ∈ (computeVolumes labelData zooms brainMaskData).map Prod.fst ↔
          labelId ≠ 0 ∧ labelId ∈ labelData)
    ∧ ((computeVolumes labelData zooms brainMaskData).map Prod.fst).Nodup
    ∧ ((∀ x ∈ labelData, x = 0) → computeVolumes labelData zooms brainMaskData = []) := by
  refine ⟨?_, ?_, ?_⟩
  · intro labelId
    rw [keys_computeVolumes]
    exact mem_labelsId
  · rw [keys_computeVolumes]
    exact nodup_labelsId _
  · intro hall
    have hkeys : (computeVolumes labelData zooms brainMaskData).map Prod.fst = [] := by
      rw [keys_computeVolumes]
      refine List.eq_nil_iff_forall_not_mem.mpr (fun a ha => ?_)
      have hm := mem_labelsId.mp ha
      exact hm.1 (hall a hm.2)
    exact List.map_eq_nil_iff.mp hkeys

/-- Witness for C5 at a concrete input (scenario 1: all-zero label volume). -/
theorem report_keys_are_distinct_nonzero_labels_witness :
    computeVolumes [(0 : ℤ), 0, 0] (1, 1, 1) none = [] :=
  (report_keys_are_distinct_nonzero_labels [(0 : ℤ), 0, 0] (1, 1, 1) none).2.2
    (by decide)

/-- C10: with positive voxel spacings, every volume in the report is strictly
positive, because every enumerated label id occurs in at least one voxel. -/
theorem report_volumes_positive
    (labelData : List ℤ) (zooms : ℚ × ℚ × ℚ) (brainMaskData : Option (List ℚ))
    (labelId : ℤ) (e : Entry)
    (hx : 0 < zooms.1) (hy : 0 < zooms.2.1) (hz : 0 < zooms.2.2)
    (h : (labelId, e) ∈ computeVolumes labelData zooms brainMaskData) :
    0 < e.volume := by
  obtain ⟨hmem, rfl⟩ := mem_computeVolumes h
  have hcnt : 0 < labelData.count labelId :=
    List.count_pos_iff.mpr (mem_labelsId.mp hmem).2
  have hq : (0 : ℚ) < (labelData.count labelId : ℚ) := by exact_mod_cast hcnt
  simp only [voxelVolume]
  exact mul_pos hq (mul_pos (mul_pos hx hy) hz)

/-- Witness for C10 at a concrete input. -/
theorem report_volumes_positive_witness :
    (0 : ℚ) < (1 : ℚ) ∧
      0 < ({ volume := 1 / 2, volume_normalized := none } : Entry).volume := by
  have hm : ((3 : ℤ), ({ volume := 1 / 2, volume_normalized := none } : Entry)) ∈
      computeVolumes [3] (1 / 2, 1 / 2, 2) none := by
    simp [computeVolumes, labelsId, voxelVolume]
  exact ⟨one_pos,
    report_volumes_positive [3] (1 / 2, 1 / 2, 2) none 3 _
      (by norm_num) (by norm_num) (by norm_num) hm⟩

/-- C7: the volumes in the report sum to the total number of non-zero voxels
times the single-voxel volume (exactly, hence within any tolerance). -/
theorem sum_report_volumes_eq_total_nonzero
    (labelData : List ℤ) (zooms : ℚ × ℚ × ℚ) (brainMaskData : Option (List ℚ)) :
    ((computeVolumes labelData zooms brainMaskData).map (fun p => p.2.volume)).sum
      = (labelData.countP (fun x => decide (x ≠ 0)) : ℚ) * voxelVolume zooms := by
  have h1 : (computeVolumes labelData zooms brainMaskData).map (fun p => p.2.volume)
      = (labelsId labelData).map (fun a => (labelData.count a : ℚ) * voxelVolume zooms) := by
    unfold computeVolumes
    rw [List.map_map]
    rfl
  rw [h1]
  have hperm : List.Perm
      ((labelsId labelData).map (fun a => (labelData.count a : ℚ) * voxelVolume zooms))
      (((labelData.filter (· ≠ 0)).dedup).map
        (fun a => (labelData.count a : ℚ) * voxelVolume zooms)) :=
    (List.perm_insertionSort _ _).map _
  rw [hperm.sum_eq]
  have hcong : ((labelData.filter (· ≠ 0)).dedup).map
        (fun a => (labelData.count a : ℚ) * voxelVolume zooms)
      = ((labelData.filter (· ≠ 0)).dedup).map
          (fun a => ((labelData.filter (· ≠ 0)).count a : ℚ) * voxelVolume zooms) := by
    refine List.map_congr_left (fun a ha => ?_)
    have hmem := List.mem_dedup.mp ha
    have hp : (fun x => decide (x ≠ 0)) a = true := (List.mem_filter.mp hmem).2
    have hne : a ≠ 0 := by simpa using hp
    rw [count_filter_nonzero labelData a hne]
  rw [hcong, list_sum_map_mul_const]
  congr 1
  have hcast : ((labelData.filter (· ≠ 0)).dedup).map
        (fun a => ((labelData.filter (· ≠ 0)).count a : ℚ))
      = (((labelData.filter (· ≠ 0)).dedup).map
          (fun a => (labelData.filter (· ≠ 0)).count a)).map (Nat.cast : ℕ → ℚ) := by
    rw [List.map_map]
    rfl
  rw [hcast, ← Nat.cast_list_sum, List.sum_map_count_dedup_eq_length,
    List.countP_eq_length_filter]

end Avnirpy

namespace Avnirpy

/-- C2 counterexample: with the non-binary mask [2, 2] (two in-brain voxels,
mask sum 4) the code computes volume_normalized = 1/4, while dividing by the
in-brain voxel count would give 1/2. -/
theorem normalized_uses_mask_sum_not_count_counterexample :
    computeVolumes [1] (1, 1, 1) (some [2, 2]) =
        [(1, { volume := 1, volume_normalized := some (.fin (1 / 4)) })]
    ∧ (1 : ℚ) / (spec_inMaskVoxelCount [2, 2] : ℚ) ≠ 1 / 4 := by
  constructor
  · simp [computeVolumes, labelsId, voxelVolume, fdiv]
    norm_num
  · norm_num [spec_inMaskVoxelCount, List.countP_cons]

/-- C2 amended: volume_normalized equals the volume divided by the SUM of
the mask voxel values (np.sum of the mask); this coincides with the in-brain
voxel count exactly for binary (0/1) masks. -/
theorem volume_normalized_eq_div_mask_sum
    (labelData : List ℤ) (zooms : ℚ × ℚ × ℚ) (mask : List ℚ) (labelId : ℤ) (e : Entry)
    (h : (labelId, e) ∈ computeVolumes labelData zooms (some mask)) :
    e.volume_normalized = some (fdiv e.volume mask.sum)
    ∧ ((∀ x ∈ mask, x = 0 ∨ x = 1) → mask.sum = (spec_inMaskVoxelCount mask : ℚ)) := by
  obtain ⟨hmem, rfl⟩ := mem_computeVolumes h
  exact ⟨rfl, fun hbin => binary_mask_sum_eq_count mask hbin⟩

/-- Witness for the amended C2 at a concrete input. -/
theorem volume_normalized_eq_div_mask_sum_witness :
    (({ volume := 1, volume_normalized := some (.fin 1) } : Entry).volume_normalized
        = some (fdiv ({ volume := 1, volume_normalized := some (.fin 1) } : Entry).volume
            (List.sum [(1 : ℚ), 0])))
    ∧ ((∀ x ∈ [(1 : ℚ), 0], x = 0 ∨ x = 1) →
        List.sum [(1 : ℚ), 0] = (spec_inMaskVoxelCount [(1 : ℚ), 0] : ℚ)) := by
  have hm : ((1 : ℤ), ({ volume := 1, volume_normalized := some (.fin 1) } : Entry)) ∈
      computeVolumes [1] (1, 1, 1) (some [(1 : ℚ), 0]) := by
    simp [computeVolumes, labelsId, voxelVolume, fdiv]
  exact volume_normalized_eq_div_mask_sum [1] (1, 1, 1) [(1 : ℚ), 0] 1 _ hm

/-- C4: when a brain mask is given and the input/output checks pass, a voxel
spacing difference (exact comparison) or an affine difference beyond the
np.allclose tolerance makes the run fail with the geometry-mismatch error
and nothing is written; when both match, no geometry-mismatch error is
raised. -/
theorem geometry_mismatch_gates_run
    (args : Args) (env : Env) (maskPath : String)
    (hm : args.brain_mask = some maskPath)
    (h1 : assertInputsExist env args.input_labels args.brain_mask = none)
    (h2 : assertOutputsExist env args args.output_json = none) :
    (((env.labelImages args.input_labels).zooms ≠ (env.maskImages maskPath).zooms ∨
        allclose (env.labelImages args.input_labels).affine
          (env.maskImages maskPath).affine = false) →
      mainRun args env = (.error .geometryMismatch, []))
    ∧ (((env.labelImages args.input_labels).zooms = (env.maskImages maskPath).zooms ∧
        allclose (env.labelImages args.input_labels).affine
          (env.maskImages maskPath).affine = true) →
      (mainRun args env).1 ≠ .error .geometryMismatch) := by
  rw [mainRun_eq_of_checks args env maskPath hm h1 h2]
  constructor
  · intro hmis
    rw [if_pos hmis]
  · rintro ⟨hz, ha⟩
    rw [if_neg (by simp [hz, ha])]
    simp

/-- Witness for C4 at a concrete input (scenario 4: mask spacing (2,2,2)
against label spacing (1,1,1)). -/
theorem geometry_mismatch_gates_run_witness :
    mainRun argsZeroMask badZoomsEnv = (.error .geometryMismatch, []) :=
  (geometry_mismatch_gates_run argsZeroMask badZoomsEnv "mask.nrrd" rfl rfl rfl).1
    (Or.inl (by simp [argsZeroMask, badZoomsEnv, Prod.ext_iff]))

/-- C6: the argument parser defines no warn-only or verbosity option (the
Args structure holds exactly the parser's fields), so under EVERY argument
configuration a geometry mismatch raises the fatal error and stops the run;
no configuration degrades it to a warning that lets computation proceed. -/
theorem geometry_mismatch_always_fatal
    (args : Args) (env : Env) (maskPath : String)
    (hm : args.brain_mask = some maskPath)
    (h1 : assertInputsExist env args.input_labels args.brain_mask = none)
    (h2 : assertOutputsExist env args args.output_json = none)
    (hmis : (env.labelImages args.input_labels).zooms ≠ (env.maskImages maskPath).zooms ∨
      allclose (env.labelImages args.input_labels).affine
        (env.maskImages maskPath).affine = false) :
    mainRun args env = (.error .geometryMismatch, []) := by
  rw [mainRun_eq_of_checks args env maskPath hm h1 h2, if_pos hmis]

/-- Witness for C6 at a concrete input. -/
theorem geometry_mismatch_always_fatal_witness :
    mainRun argsZeroMask badZoomsEnvB = (.error .geometryMismatch, []) :=
  geometry_mismatch_always_fatal argsZeroMask badZoomsEnvB "mask.nrrd" rfl rfl rfl
    (Or.inl (by simp [argsZeroMask, badZoomsEnvB, Prod.ext_iff]))

end Avnirpy

namespace Avnirpy

/-- C3 counterexample: with an all-zero brain mask the run does NOT fail:
it succeeds (no DegenerateMask or any other error) and reports an infinite
normalized volume. -/
theorem zero_mask_no_error_counterexample :
    (mainRun argsZeroMask envZeroMask).1 =
      .ok [(1, { volume := 1, volume_normalized := some .inf })] := by
  simp [mainRun, argsZeroMask, envZeroMask, assertInputsExist, assertOutputsExist,
    allclose, idAffine, atol, rtol, computeVolumes, labelsId, voxelVolume, fdiv]
  norm_num

/-- C3 amended: when the brain mask sums to zero the code raises no error:
the run silently succeeds and every normalized volume it reports is
non-finite (infinite or NaN). -/
theorem zero_sum_mask_silently_nonfinite
    (args : Args) (env : Env) (maskPath : String)
    (hm : args.brain_mask = some maskPath)
    (h1 : assertInputsExist env args.input_labels args.brain_mask = none)
    (h2 : assertOutputsExist env args args.output_json = none)
    (hz : (env.labelImages args.input_labels).zooms = (env.maskImages maskPath).zooms)
    (ha : allclose (env.labelImages args.input_labels).affine
      (env.maskImages maskPath).affine = true)
    (hs : (env.maskImages maskPath).data.sum = 0) :
    (mainRun args env).1 = .ok (computeVolumes (env.labelImages args.input_labels).data
        (env.labelImages args.input_labels).zooms (some (env.maskImages maskPath).data))
    ∧ ∀ p ∈ computeVolumes (env.labelImages args.input_labels).data
        (env.labelImages args.input_labels).zooms (some (env.maskImages maskPath).data),
        ∃ v, p.2.volume_normalized = some v ∧ v.isFinite = false := by
  rw [mainRun_eq_of_checks args env maskPath hm h1 h2, if_neg (by simp [hz, ha])]
  constructor
  · rfl
  · rintro ⟨labelId, e⟩ hp
    obtain ⟨hmem, rfl⟩ := mem_computeVolumes hp
    refine ⟨_, rfl, ?_⟩
    simp only [hs]
    exact fdiv_zero_not_finite _

/-- Witness for the amended C3 at a concrete input. -/
theorem zero_sum_mask_silently_nonfinite_witness :
    ((mainRun argsZeroMask envZeroMask).1 =
      .ok (computeVolumes (envZeroMask.labelImages argsZeroMask.input_labels).data
        (envZeroMask.labelImages argsZeroMask.input_labels).zooms
        (some (envZeroMask.maskImages "mask.nrrd").data)))
    ∧ ∀ p ∈ computeVolumes (envZeroMask.labelImages argsZeroMask.input_labels).data
        (envZeroMask.labelImages argsZeroMask.input_labels).zooms
        (some (envZeroMask.maskImages "mask.nrrd").data),
        ∃ v, p.2.volume_normalized = some v ∧ v.isFinite = false :=
  zero_sum_mask_silently_nonfinite argsZeroMask envZeroMask "mask.nrrd" rfl rfl rfl rfl
    (by simp [envZeroMask, argsZeroMask, allclose, idAffine, atol, rtol]; norm_num)
    (by simp [envZeroMask])

/-- C8: the computation is deterministic: identical argument and environment
inputs give identical results and identical writes. -/
theorem deterministic_runs (a1 a2 : Args) (e1 e2 : Env)
    (ha : a1 = a2) (he : e1 = e2) :
    mainRun a1 e1 = mainRun a2 e2 := by
  rw [ha, he]

/-- Witness for C8 at a concrete input. -/
theorem deterministic_runs_witness :
    mainRun argsZeroMask envZeroMask = mainRun argsZeroMask envZeroMask :=
  deterministic_runs argsZeroMask argsZeroMask envZeroMask envZeroMask rfl rfl

/-- C9: on every error path nothing is written to the filesystem: the report
is written to the output path only after the whole computation succeeded. -/
theorem no_write_on_error (args : Args) (env : Env) (err : Err)
    (h : (mainRun args env).1 = .error err) :
    (mainRun args env).2 = [] := by
  cases hA : assertInputsExist env args.input_labels args.brain_mask with
  | some e => rw [mainRun_input_err args env e hA]
  | none =>
    cases hB : assertOutputsExist env args args.output_json with
    | some e => rw [mainRun_output_err args env e hA hB]
    | none =>
      cases hM : args.brain_mask with
      | none =>
        rw [mainRun_no_mask args env hA hB hM] at h
        simp at h
      | some maskPath =>
        rw [mainRun_eq_of_checks args env maskPath hM hA hB] at h ⊢
        by_cases hg : (env.labelImages args.input_labels).zooms ≠
            (env.maskImages maskPath).zooms ∨
            allclose (env.labelImages args.input_labels).affine
              (env.maskImages maskPath).affine = false
        · rw [if_pos hg]
        · rw [if_neg hg] at h
          simp at h

/-- Witness for C9 at a concrete input (missing input file). -/
theorem no_write_on_error_witness :
    (mainRun argsZeroMask missingInputEnv).2 = [] :=
  no_write_on_error argsZeroMask missingInputEnv
    (.inputNotFound "labels.nrrd") rfl

end Avnirpy
